import Mathlib

/-!
Shallow embedding of the AirTouch climate adapter
(src/custom_components/airtouch/climate.py).

The module is glue code between the pyairtouch vendor library and the host
platform climate-entity abstraction.  The vendor enums (AcPowerState, AcMode,
AcFanSpeed, ZonePowerState, AcPowerControl) and the host platform vocabulary
(HVACMode, HVACAction, fan-mode and preset strings) are modelled as Lean
inductives and string constants; the adapter classes become structures whose
read properties are pure functions over the wrapped vendor state and whose
command methods are modelled by the trace of vendor calls, raised lookup
errors and logged warnings they produce.
-/

namespace AirtouchClimate

/-- Vendor power state of an AC unit (pyairtouch.AcPowerState). -/
inductive AcPowerState where
  | OFF
  | ON
  | OFF_AWAY
  | ON_AWAY
  | SLEEP
deriving DecidableEq, Fintype

/-- Vendor operating mode of an AC unit (pyairtouch.AcMode). -/
inductive AcMode where
  | AUTO
  | HEAT
  | DRY
  | FAN
  | COOL
  | AUTO_HEAT
  | AUTO_COOL
deriving DecidableEq, Fintype

/-- Vendor fan speed of an AC unit (pyairtouch.AcFanSpeed). -/
inductive AcFanSpeed where
  | AUTO
  | QUIET
  | LOW
  | MEDIUM
  | HIGH
  | POWERFUL
  | TURBO
  | INTELLIGENT_AUTO
deriving DecidableEq, Fintype

/-- Vendor power state of a zone (pyairtouch.ZonePowerState). -/
inductive ZonePowerState where
  | OFF
  | ON
  | TURBO
deriving DecidableEq, Fintype

/-- Vendor power control directive (pyairtouch.AcPowerControl), the
directives this module issues. -/
inductive AcPowerControl where
  | TURN_OFF
  | SET_TO_AWAY
  | SET_TO_SLEEP
deriving DecidableEq, Fintype

/-- Host platform HVAC mode vocabulary (homeassistant climate.HVACMode),
restricted to the values this module uses. -/
inductive HVACMode where
  | OFF
  | HEAT_COOL
  | HEAT
  | DRY
  | FAN_ONLY
  | COOL
deriving DecidableEq, Fintype

/-- Host platform HVAC action vocabulary (homeassistant climate.HVACAction),
restricted to the values this module uses. -/
inductive HVACAction where
  | OFF
  | IDLE
  | HEATING
  | DRYING
  | FAN
  | COOLING
deriving DecidableEq, Fintype

/-- Host platform fan mode string constant climate.FAN_AUTO. -/
def FAN_AUTO : String := "auto"

/-- Host platform fan mode string constant climate.FAN_LOW. -/
def FAN_LOW : String := "low"

/-- Host platform fan mode string constant climate.FAN_MEDIUM. -/
def FAN_MEDIUM : String := "medium"

/-- Host platform fan mode string constant climate.FAN_HIGH. -/
def FAN_HIGH : String := "high"

/-- Host platform fan mode string constant climate.FAN_OFF. -/
def FAN_OFF : String := "off"

/-- Host platform fan mode string constant climate.FAN_ON. -/
def FAN_ON : String := "on"

/-- Host platform preset string constant climate.PRESET_NONE. -/
def PRESET_NONE : String := "none"

/-- Host platform preset string constant climate.PRESET_AWAY. -/
def PRESET_AWAY : String := "away"

/-- Host platform preset string constant climate.PRESET_SLEEP. -/
def PRESET_SLEEP : String := "sleep"

/-- Vendor zone state, the fields this module reads
(pyairtouch.Zone).  Temperature fields are not read by any mapped
property modelled here beyond presence of a sensor. -/
structure Zone where
  power_state : ZonePowerState
  has_temp_sensor : Bool

/-- Vendor AC unit state, the fields this module reads
(pyairtouch.AirConditioner). -/
structure AirConditioner where
  power_state : AcPowerState
  mode : AcMode
  fan_speed : AcFanSpeed
  supported_modes : List AcMode
  supported_fan_speeds : List AcFanSpeed
  zones : List Zone

/-- A vendor AirTouch console object: the list of AC units it reports. -/
structure AirTouch where
  air_conditioners : List AirConditioner

/-- climate.py line 57: forward AC mode table. -/
def _AC_TO_CLIMATE_HVAC_MODE : AcMode → HVACMode
  | .AUTO => .HEAT_COOL
  | .HEAT => .HEAT
  | .DRY => .DRY
  | .FAN => .FAN_ONLY
  | .COOL => .COOL
  | .AUTO_HEAT => .HEAT_COOL
  | .AUTO_COOL => .HEAT_COOL

/-- climate.py line 68: reverse AC mode table.  Excludes HVACMode.OFF, which
translates to a power control request; a key absent from the Python dict is
modelled as none. -/
def _CLIMATE_TO_AC_HVAC_MODE : HVACMode → Option AcMode
  | .HEAT_COOL => some .AUTO
  | .HEAT => some .HEAT
  | .DRY => some .DRY
  | .FAN_ONLY => some .FAN
  | .COOL => some .COOL
  | .OFF => none

/-- climate.py line 76: AC mode to HVAC action table. -/
def _AC_TO_CLIMATE_HVAC_ACTION : AcMode → HVACAction
  | .AUTO => .IDLE
  | .HEAT => .HEATING
  | .DRY => .DRYING
  | .FAN => .FAN
  | .COOL => .COOLING
  | .AUTO_HEAT => .HEATING
  | .AUTO_COOL => .COOLING

/-- climate.py line 86: forward AC fan speed table. -/
def _AC_TO_CLIMATE_FAN_MODE : AcFanSpeed → String
  | .AUTO => FAN_AUTO
  | .QUIET => "quiet"
  | .LOW => FAN_LOW
  | .MEDIUM => FAN_MEDIUM
  | .HIGH => FAN_HIGH
  | .POWERFUL => "powerful"
  | .TURBO => "turbo"
  | .INTELLIGENT_AUTO => "intelligent"

/-- The key order of the Python _AC_TO_CLIMATE_FAN_MODE dict. -/
def acFanSpeedKeys : List AcFanSpeed :=
  [.AUTO, .QUIET, .LOW, .MEDIUM, .HIGH, .POWERFUL, .TURBO, .INTELLIGENT_AUTO]

/-- climate.py line 96: reverse fan table, built by inverting the forward
dict; looking up a missing key is modelled as none. -/
def _CLIMATE_TO_AC_FAN_MODE (fan_mode : String) : Option AcFanSpeed :=
  acFanSpeedKeys.find? (fun fan_speed => _AC_TO_CLIMATE_FAN_MODE fan_speed == fan_mode)

/-- climate.py line 211: forward zone fan table. -/
def _ZONE_TO_CLIMATE_FAN_MODE : ZonePowerState → String
  | .OFF => FAN_OFF
  | .ON => FAN_ON
  | .TURBO => "turbo"

/-- The key order of the Python _ZONE_TO_CLIMATE_FAN_MODE dict. -/
def zonePowerStateKeys : List ZonePowerState := [.OFF, .ON, .TURBO]

/-- climate.py line 216: reverse zone fan table, built by inverting the
forward dict; looking up a missing key is modelled as none. -/
def _CLIMATE_TO_ZONE_FAN_MODE (fan_mode : String) : Option ZonePowerState :=
  zonePowerStateKeys.find?
    (fun power_state => _ZONE_TO_CLIMATE_FAN_MODE power_state == fan_mode)

/-- A vendor call issued on an AC unit by a command method. -/
inductive AcVendorCall where
  | set_fan_speed (fan_speed : AcFanSpeed)
  | set_power (power_control : AcPowerControl)
  | set_mode (mode : AcMode) (power_on : Bool)
deriving DecidableEq

/-- A vendor call issued on a zone by a command method. -/
inductive ZoneVendorCall where
  | set_power (power_state : ZonePowerState)
deriving DecidableEq

/-- Observable outcome of one command-method invocation: the vendor calls it
issued in order, whether a lookup (KeyError) was raised, and how many
warnings it logged. -/
structure AcMethodOutcome where
  vendor_calls : List AcVendorCall
  raised_key_error : Bool
  warnings_logged : Nat
deriving DecidableEq

/-- Observable outcome of one zone command-method invocation. -/
structure ZoneMethodOutcome where
  vendor_calls : List ZoneVendorCall
  raised_key_error : Bool
deriving DecidableEq

/-- The AcClimateEntity adapter: the wrapped vendor AC together with the
capability attributes computed in __init__. -/
structure AcClimateEntity where
  airtouch_ac : AirConditioner
  _attr_hvac_modes : List HVACMode
  _attr_fan_modes : List String

/-- climate.py line 105, AcClimateEntity.__init__: store the vendor AC and
compute the capability attributes.  The climate entity groups the OFF power
state into the HVACMode list. -/
def AcClimateEntity.init (airtouch_ac : AirConditioner) : AcClimateEntity :=
  ⟨airtouch_ac,
    HVACMode.OFF :: airtouch_ac.supported_modes.map _AC_TO_CLIMATE_HVAC_MODE,
    airtouch_ac.supported_fan_speeds.map _AC_TO_CLIMATE_FAN_MODE⟩

/-- climate.py line 130, AcClimateEntity.preset_modes property. -/
def AcClimateEntity.preset_modes (_self : AcClimateEntity) : List String :=
  [PRESET_NONE, PRESET_AWAY, PRESET_SLEEP]

/-- climate.py line 154, AcClimateEntity.fan_mode property. -/
def AcClimateEntity.fan_mode (self : AcClimateEntity) : String :=
  _AC_TO_CLIMATE_FAN_MODE self.airtouch_ac.fan_speed

/-- climate.py line 158, AcClimateEntity.hvac_mode property. -/
def AcClimateEntity.hvac_mode (self : AcClimateEntity) : HVACMode :=
  match self.airtouch_ac.power_state with
  | .OFF | .OFF_AWAY => .OFF
  | _ => _AC_TO_CLIMATE_HVAC_MODE self.airtouch_ac.mode

/-- climate.py line 166, AcClimateEntity.hvac_action property. -/
def AcClimateEntity.hvac_action (self : AcClimateEntity) : HVACAction :=
  match self.airtouch_ac.power_state with
  | .OFF | .OFF_AWAY => .OFF
  | _ => _AC_TO_CLIMATE_HVAC_ACTION self.airtouch_ac.mode

/-- climate.py line 174, AcClimateEntity.preset_mode property. -/
def AcClimateEntity.preset_mode (self : AcClimateEntity) : String :=
  match self.airtouch_ac.power_state with
  | .OFF_AWAY | .ON_AWAY => PRESET_AWAY
  | .SLEEP => PRESET_SLEEP
  | _ => PRESET_NONE

/-- climate.py line 184, AcClimateEntity.async_set_fan_mode: a reverse-table
dict lookup (KeyError on a missing key) and a set_fan_speed vendor call. -/
def AcClimateEntity.async_set_fan_mode (_self : AcClimateEntity)
    (fan_mode : String) : AcMethodOutcome :=
  match _CLIMATE_TO_AC_FAN_MODE fan_mode with
  | some fan_speed => ⟨[.set_fan_speed fan_speed], false, 0⟩
  | none => ⟨[], true, 0⟩

/-- climate.py line 187, AcClimateEntity.async_set_hvac_mode: OFF becomes a
TURN_OFF power command, anything else a reverse-table lookup and a set_mode
call with power_on set. -/
def AcClimateEntity.async_set_hvac_mode (_self : AcClimateEntity)
    (hvac_mode : HVACMode) : AcMethodOutcome :=
  if hvac_mode = HVACMode.OFF then
    ⟨[.set_power .TURN_OFF], false, 0⟩
  else
    match _CLIMATE_TO_AC_HVAC_MODE hvac_mode with
    | some mode => ⟨[.set_mode mode true], false, 0⟩
    | none => ⟨[], true, 0⟩

/-- climate.py line 195, AcClimateEntity.async_set_preset_mode: AWAY and
SLEEP become power commands, any other value only logs a warning. -/
def AcClimateEntity.async_set_preset_mode (_self : AcClimateEntity)
    (preset_mode : String) : AcMethodOutcome :=
  if preset_mode = PRESET_AWAY then
    ⟨[.set_power .SET_TO_AWAY], false, 0⟩
  else if preset_mode = PRESET_SLEEP then
    ⟨[.set_power .SET_TO_SLEEP], false, 0⟩
  else
    ⟨[], false, 1⟩

/-- The ZoneClimateEntity adapter: the wrapped vendor zone and its parent
AC. -/
structure ZoneClimateEntity where
  airtouch_ac : AirConditioner
  airtouch_zone : Zone

/-- climate.py line 251, ZoneClimateEntity.fan_modes property:
list(set(values)) of the zone fan table; the three values are distinct so
the set keeps all of them (element order of the Python set is immaterial to
the claims). -/
def ZoneClimateEntity.fan_modes (_self : ZoneClimateEntity) : List String :=
  (zonePowerStateKeys.map _ZONE_TO_CLIMATE_FAN_MODE).dedup

/-- climate.py line 255, ZoneClimateEntity.hvac_modes property: the zone can
either be off, or on in the current mode of the AC. -/
def ZoneClimateEntity.hvac_modes (self : ZoneClimateEntity) : List HVACMode :=
  [HVACMode.OFF, _AC_TO_CLIMATE_HVAC_MODE self.airtouch_ac.mode]

/-- climate.py line 271, ZoneClimateEntity.fan_mode property. -/
def ZoneClimateEntity.fan_mode (self : ZoneClimateEntity) : String :=
  _ZONE_TO_CLIMATE_FAN_MODE self.airtouch_zone.power_state

/-- climate.py line 275, ZoneClimateEntity.hvac_mode property. -/
def ZoneClimateEntity.hvac_mode (self : ZoneClimateEntity) : HVACMode :=
  if self.airtouch_zone.power_state = ZonePowerState.OFF then
    HVACMode.OFF
  else
    match self.airtouch_ac.power_state with
    | .OFF | .OFF_AWAY => .OFF
    | _ => _AC_TO_CLIMATE_HVAC_MODE self.airtouch_ac.mode

/-- climate.py line 291, ZoneClimateEntity.async_set_fan_mode: a
reverse-table dict lookup (KeyError on a missing key) and a zone set_power
vendor call. -/
def ZoneClimateEntity.async_set_fan_mode (_self : ZoneClimateEntity)
    (fan_mode : String) : ZoneMethodOutcome :=
  match _CLIMATE_TO_ZONE_FAN_MODE fan_mode with
  | some power_state => ⟨[.set_power power_state], false⟩
  | none => ⟨[], true⟩

/-- climate.py line 294, ZoneClimateEntity.async_set_hvac_mode: any mode
other than OFF is a request to turn the zone on. -/
def ZoneClimateEntity.async_set_hvac_mode (_self : ZoneClimateEntity)
    (hvac_mode : HVACMode) : ZoneMethodOutcome :=
  if hvac_mode = HVACMode.OFF then
    ⟨[.set_power .OFF], false⟩
  else
    ⟨[.set_power .ON], false⟩

/-- A climate entity constructed by discovery. -/
inductive DiscoveredEntity where
  | acEntity (entity : AcClimateEntity)
  | zoneEntity (entity : ZoneClimateEntity)

/-- True for AC adapters. -/
def DiscoveredEntity.isAcEntity : DiscoveredEntity → Bool
  | .acEntity _ => true
  | .zoneEntity _ => false

/-- True for zone adapters. -/
def DiscoveredEntity.isZoneEntity : DiscoveredEntity → Bool
  | .acEntity _ => false
  | .zoneEntity _ => true

/-- True for zone adapters whose wrapped zone has no temperature sensor. -/
def DiscoveredEntity.isSensorlessZoneEntity : DiscoveredEntity → Bool
  | .acEntity _ => false
  | .zoneEntity entity => !entity.airtouch_zone.has_temp_sensor

/-- climate.py line 20, async_setup_entry: the discovered_entities list.
For each console, for each AC, one AcClimateEntity followed by one
ZoneClimateEntity per zone with a temperature sensor. -/
def discovered_entities (api_objects : List AirTouch) : List DiscoveredEntity :=
  api_objects.flatMap fun airtouch =>
    airtouch.air_conditioners.flatMap fun airtouch_ac =>
      DiscoveredEntity.acEntity (AcClimateEntity.init airtouch_ac) ::
        ((airtouch_ac.zones.filter fun zone => zone.has_temp_sensor).map
          fun airtouch_zone =>
            DiscoveredEntity.zoneEntity ⟨airtouch_ac, airtouch_zone⟩)

/-- climate.py line 54: the batches passed to async_add_devices during one
async_setup_entry run — a single call with the whole discovered list. -/
def async_add_devices_batches (api_objects : List AirTouch) :
    List (List DiscoveredEntity) :=
  [discovered_entities api_objects]

/-- Number of AC units across all consoles. -/
def totalAcCount (api_objects : List AirTouch) : Nat :=
  (api_objects.map fun airtouch => airtouch.air_conditioners.length).sum

/-- Number of zones with a temperature sensor across all consoles. -/
def totalSensorZoneCount (api_objects : List AirTouch) : Nat :=
  (api_objects.map fun airtouch =>
    (airtouch.air_conditioners.map fun airtouch_ac =>
      (airtouch_ac.zones.filter fun zone => zone.has_temp_sensor).length).sum).sum

/-! ## Sample vendor states used by witnesses -/

/-- A sample AC unit that is switched off while its vendor mode is HEAT. -/
def acSampleOff : AirConditioner :=
  ⟨.OFF, .HEAT, .LOW, [.HEAT, .COOL], [.LOW, .HIGH], []⟩

/-- A sample AC unit that is on in COOL mode. -/
def acSampleOn : AirConditioner :=
  ⟨.ON, .COOL, .LOW, [.HEAT, .COOL], [.LOW, .HIGH], []⟩

/-- A sample zone that is on and has a temperature sensor. -/
def zoneSampleOn : Zone := ⟨.ON, true⟩

/-- A sample zone entity: zone on, parent AC on in COOL mode. -/
def zoneEntitySample : ZoneClimateEntity := ⟨acSampleOn, zoneSampleOn⟩

/-! ## Claims -/

/-- Claim C1: when the AC power state is OFF or OFF_AWAY the adapter's
hvac_mode and hvac_action are both OFF whatever the vendor mode is; for the
remaining power states (ON, ON_AWAY, SLEEP) hvac_mode is the vendor mode
through _AC_TO_CLIMATE_HVAC_MODE and hvac_action the vendor mode through
_AC_TO_CLIMATE_HVAC_ACTION. -/
theorem ac_mode_action_follow_power_state (airtouch_ac : AirConditioner) :
    ((airtouch_ac.power_state = AcPowerState.OFF ∨
        airtouch_ac.power_state = AcPowerState.OFF_AWAY) →
      (AcClimateEntity.init airtouch_ac).hvac_mode = HVACMode.OFF ∧
      (AcClimateEntity.init airtouch_ac).hvac_action = HVACAction.OFF) ∧
    ((airtouch_ac.power_state = AcPowerState.ON ∨
        airtouch_ac.power_state = AcPowerState.ON_AWAY ∨
        airtouch_ac.power_state = AcPowerState.SLEEP) →
      (AcClimateEntity.init airtouch_ac).hvac_mode =
        _AC_TO_CLIMATE_HVAC_MODE airtouch_ac.mode ∧
      (AcClimateEntity.init airtouch_ac).hvac_action =
        _AC_TO_CLIMATE_HVAC_ACTION airtouch_ac.mode) := by
  obtain ⟨ps, m, fs, sm, sfs, zs⟩ := airtouch_ac
  cases ps <;>
    simp [AcClimateEntity.init, AcClimateEntity.hvac_mode, AcClimateEntity.hvac_action]

/-- Claim C1 witness: an AC that is OFF in vendor mode HEAT reports mode
OFF, and an AC that is ON in vendor mode COOL reports mode COOL. -/
theorem ac_mode_action_follow_power_state_witness :
    (AcClimateEntity.init acSampleOff).hvac_mode = HVACMode.OFF ∧
    (AcClimateEntity.init acSampleOn).hvac_mode = HVACMode.COOL :=
  ⟨((ac_mode_action_follow_power_state acSampleOff).1 (Or.inl rfl)).1,
    (((ac_mode_action_follow_power_state acSampleOn).2 (Or.inl rfl)).1).trans rfl⟩

/-- Claim C2: the zone adapter's hvac_mode is OFF when the zone power state
is OFF, regardless of the parent AC; otherwise OFF when the parent AC power
state is OFF or OFF_AWAY; otherwise the parent AC mode through
_AC_TO_CLIMATE_HVAC_MODE. -/
theorem zone_mode_follows_zone_and_parent_power (self : ZoneClimateEntity) :
    (self.airtouch_zone.power_state = ZonePowerState.OFF →
      self.hvac_mode = HVACMode.OFF) ∧
    (self.airtouch_zone.power_state ≠ ZonePowerState.OFF →
      ((self.airtouch_ac.power_state = AcPowerState.OFF ∨
          self.airtouch_ac.power_state = AcPowerState.OFF_AWAY) →
        self.hvac_mode = HVACMode.OFF) ∧
      (self.airtouch_ac.power_state ≠ AcPowerState.OFF →
        self.airtouch_ac.power_state ≠ AcPowerState.OFF_AWAY →
        self.hvac_mode = _AC_TO_CLIMATE_HVAC_MODE self.airtouch_ac.mode)) := by
  obtain ⟨⟨aps, m, fs, sm, sfs, zs⟩, zps, hts⟩ := self
  cases zps <;> cases aps <;> simp [ZoneClimateEntity.hvac_mode]

/-- Claim C2 witness: a zone that is on under a parent AC that is ON in COOL
mode reports mode COOL. -/
theorem zone_mode_follows_zone_and_parent_power_witness :
    zoneEntitySample.hvac_mode = HVACMode.COOL :=
  ((((zone_mode_follows_zone_and_parent_power zoneEntitySample).2
      (by decide)).2) (by decide) (by decide)).trans rfl

/-- Claim C3: at construction the advertised hvac modes are OFF plus the
table-mapped supported vendor modes (so OFF is always advertised and a mode
is advertised exactly when it is OFF or the image of a supported vendor
mode), the advertised fan modes are the table-mapped supported vendor fan
speeds, and the preset choices are the fixed list [none, away, sleep]
whatever the supported lists are. -/
theorem ac_capability_advertisement (airtouch_ac : AirConditioner) :
    (AcClimateEntity.init airtouch_ac)._attr_hvac_modes =
      HVACMode.OFF :: airtouch_ac.supported_modes.map _AC_TO_CLIMATE_HVAC_MODE ∧
    HVACMode.OFF ∈ (AcClimateEntity.init airtouch_ac)._attr_hvac_modes ∧
    (∀ hvac_mode, hvac_mode ∈ (AcClimateEntity.init airtouch_ac)._attr_hvac_modes ↔
      hvac_mode = HVACMode.OFF ∨
        hvac_mode ∈ airtouch_ac.supported_modes.map _AC_TO_CLIMATE_HVAC_MODE) ∧
    (AcClimateEntity.init airtouch_ac)._attr_fan_modes =
      airtouch_ac.supported_fan_speeds.map _AC_TO_CLIMATE_FAN_MODE ∧
    (AcClimateEntity.init airtouch_ac).preset_modes =
      [PRESET_NONE, PRESET_AWAY, PRESET_SLEEP] := by
  refine ⟨rfl, List.mem_cons_self _ _, ?_, rfl, rfl⟩
  intro hvac_mode
  exact List.mem_cons

/-- Per-console entity counts: over one console's AC list, discovery yields
one AC adapter per AC unit, one zone adapter per zone with a temperature
sensor, and no zone adapter wrapping a sensorless zone. -/
theorem console_entity_counts (acs : List AirConditioner) :
    ((acs.flatMap fun airtouch_ac =>
        DiscoveredEntity.acEntity (AcClimateEntity.init airtouch_ac) ::
          ((airtouch_ac.zones.filter fun zone => zone.has_temp_sensor).map
            fun airtouch_zone =>
              DiscoveredEntity.zoneEntity ⟨airtouch_ac, airtouch_zone⟩)).countP
        DiscoveredEntity.isAcEntity = acs.length) ∧
    ((acs.flatMap fun airtouch_ac =>
        DiscoveredEntity.acEntity (AcClimateEntity.init airtouch_ac) ::
          ((airtouch_ac.zones.filter fun zone => zone.has_temp_sensor).map
            fun airtouch_zone =>
              DiscoveredEntity.zoneEntity ⟨airtouch_ac, airtouch_zone⟩)).countP
        DiscoveredEntity.isZoneEntity =
      (acs.map fun airtouch_ac =>
        (airtouch_ac.zones.filter fun zone => zone.has_temp_sensor).length).sum) ∧
    ((acs.flatMap fun airtouch_ac =>
        DiscoveredEntity.acEntity (AcClimateEntity.init airtouch_ac) ::
          ((airtouch_ac.zones.filter fun zone => zone.has_temp_sensor).map
            fun airtouch_zone =>
              DiscoveredEntity.zoneEntity ⟨airtouch_ac, airtouch_zone⟩)).countP
        DiscoveredEntity.isSensorlessZoneEntity = 0) := by
  induction acs with
  | nil => exact ⟨rfl, rfl, rfl⟩
  | cons airtouch_ac rest ih =>
    obtain ⟨ih1, ih2, ih3⟩ := ih
    refine ⟨?_, ?_, ?_⟩ <;>
      simp [List.countP_cons, List.countP_map, List.countP_append, ih1, ih2, ih3,
        DiscoveredEntity.isAcEntity, DiscoveredEntity.isZoneEntity,
        DiscoveredEntity.isSensorlessZoneEntity, Function.comp,
        List.countP_filter, List.countP_true, Nat.add_comm,
        ← List.countP_eq_length_filter]

/-- Claim C4: discovery yields exactly one AC adapter per vendor AC unit and
exactly one zone adapter per zone with a temperature sensor, no adapter for
a sensorless zone, and the whole list is registered in a single
async_add_devices batch. -/
theorem discovery_entity_counts (api_objects : List AirTouch) :
    (discovered_entities api_objects).countP DiscoveredEntity.isAcEntity =
      totalAcCount api_objects ∧
    (discovered_entities api_objects).countP DiscoveredEntity.isZoneEntity =
      totalSensorZoneCount api_objects ∧
    (discovered_entities api_objects).countP
      DiscoveredEntity.isSensorlessZoneEntity = 0 ∧
    async_add_devices_batches api_objects = [discovered_entities api_objects] := by
  refine ⟨?_, ?_, ?_, rfl⟩ <;>
    induction api_objects with
    | nil => rfl
    | cons airtouch rest ih =>
      simp only [discovered_entities, totalAcCount, totalSensorZoneCount,
        List.flatMap_cons, List.countP_append, List.map_cons, List.sum_cons] at ih ⊢
      rw [ih]
      simp [(console_entity_counts airtouch.air_conditioners).1,
        (console_entity_counts airtouch.air_conditioners).2.1,
        (console_entity_counts airtouch.air_conditioners).2.2]

/-- Claim C5 counterexample: the mode round trip is the identity at AUTO as
well (AUTO maps forward to HEAT_COOL, whose reverse entry is AUTO), so the
parenthetical that the round trip is the identity exactly on the non-AUTO
modes HEAT, DRY, FAN, COOL is false at the concrete input AUTO. -/
theorem mode_round_trip_not_exactly_non_auto :
    ¬(_CLIMATE_TO_AC_HVAC_MODE (_AC_TO_CLIMATE_HVAC_MODE AcMode.AUTO) =
        some AcMode.AUTO ↔
      (AcMode.AUTO = AcMode.HEAT ∨ AcMode.AUTO = AcMode.DRY ∨
        AcMode.AUTO = AcMode.FAN ∨ AcMode.AUTO = AcMode.COOL)) := by
  decide

/-- Claim C5 (amended): the mode round trip through the forward and reverse
tables restores HEAT, DRY, FAN and COOL; AUTO, AUTO_HEAT and AUTO_COOL all
map forward to HEAT_COOL, whose reverse entry is AUTO; and the round trip is
the identity exactly on the modes other than AUTO_HEAT and AUTO_COOL (so it
also restores AUTO). -/
theorem mode_round_trip_characterisation (mode : AcMode) :
    ((mode = AcMode.HEAT ∨ mode = AcMode.DRY ∨ mode = AcMode.FAN ∨
        mode = AcMode.COOL) →
      _CLIMATE_TO_AC_HVAC_MODE (_AC_TO_CLIMATE_HVAC_MODE mode) = some mode) ∧
    (_AC_TO_CLIMATE_HVAC_MODE AcMode.AUTO = HVACMode.HEAT_COOL ∧
      _AC_TO_CLIMATE_HVAC_MODE AcMode.AUTO_HEAT = HVACMode.HEAT_COOL ∧
      _AC_TO_CLIMATE_HVAC_MODE AcMode.AUTO_COOL = HVACMode.HEAT_COOL ∧
      _CLIMATE_TO_AC_HVAC_MODE HVACMode.HEAT_COOL = some AcMode.AUTO) ∧
    (_CLIMATE_TO_AC_HVAC_MODE (_AC_TO_CLIMATE_HVAC_MODE mode) = some mode ↔
      (mode ≠ AcMode.AUTO_HEAT ∧ mode ≠ AcMode.AUTO_COOL)) := by
  cases mode <;> decide

/-- The forward fan table takes each vendor fan speed to a distinct name. -/
theorem fan_forward_injective :
    ∀ a b : AcFanSpeed,
      _AC_TO_CLIMATE_FAN_MODE a = _AC_TO_CLIMATE_FAN_MODE b → a = b := by
  decide

/-- The reverse fan table returns a fan speed exactly when the forward table
sends that fan speed to the looked-up name: it is the inversion of the
forward table. -/
theorem climate_to_ac_fan_mode_eq_some (fan_mode : String)
    (fan_speed : AcFanSpeed) :
    _CLIMATE_TO_AC_FAN_MODE fan_mode = some fan_speed ↔
      _AC_TO_CLIMATE_FAN_MODE fan_speed = fan_mode := by
  constructor
  · intro h
    unfold _CLIMATE_TO_AC_FAN_MODE at h
    have hp := List.find?_some h
    exact eq_of_beq hp
  · intro h
    subst h
    cases fan_speed <;> decide

/-- Claim C6: the reverse fan table is the inversion of the forward table,
the forward table is injective, and every vendor fan speed round-trips to
itself. -/
theorem fan_mode_tables_are_inverse_bijection (fan_mode : String)
    (fan_speed : AcFanSpeed) :
    (_CLIMATE_TO_AC_FAN_MODE fan_mode = some fan_speed ↔
      _AC_TO_CLIMATE_FAN_MODE fan_speed = fan_mode) ∧
    _CLIMATE_TO_AC_FAN_MODE (_AC_TO_CLIMATE_FAN_MODE fan_speed) =
      some fan_speed ∧
    (∀ other_speed,
      _AC_TO_CLIMATE_FAN_MODE other_speed = _AC_TO_CLIMATE_FAN_MODE fan_speed →
        other_speed = fan_speed) :=
  ⟨climate_to_ac_fan_mode_eq_some fan_mode fan_speed,
    (climate_to_ac_fan_mode_eq_some _ _).mpr rfl,
    fun other_speed h => fan_forward_injective other_speed fan_speed h⟩

/-- Claim C7: setting the preset to AWAY issues the SET_TO_AWAY power
command, setting it to SLEEP issues the SET_TO_SLEEP power command, and any
other value issues no vendor call, raises nothing and logs one warning. -/
theorem set_preset_mode_tolerant (self : AcClimateEntity)
    (preset_mode : String) :
    self.async_set_preset_mode PRESET_AWAY =
      ⟨[AcVendorCall.set_power AcPowerControl.SET_TO_AWAY], false, 0⟩ ∧
    self.async_set_preset_mode PRESET_SLEEP =
      ⟨[AcVendorCall.set_power AcPowerControl.SET_TO_SLEEP], false, 0⟩ ∧
    (preset_mode ≠ PRESET_AWAY → preset_mode ≠ PRESET_SLEEP →
      self.async_set_preset_mode preset_mode = ⟨[], false, 1⟩) := by
  refine ⟨rfl, rfl, ?_⟩
  intro h1 h2
  simp [AcClimateEntity.async_set_preset_mode, h1, h2]

/-- Claim C7 witness: the unsupported preset eco issues no vendor call and
logs one warning. -/
theorem set_preset_mode_tolerant_witness :
    (AcClimateEntity.init acSampleOn).async_set_preset_mode ("eco") =
      ⟨[], false, 1⟩ :=
  (set_preset_mode_tolerant (AcClimateEntity.init acSampleOn) ("eco")).2.2
    (by decide) (by decide)

/-- A sample AC unit that advertises only the low fan speed. -/
def acSampleLowFanOnly : AirConditioner := ⟨.ON, .COOL, .LOW, [.COOL], [.LOW], []⟩

/-- Claim C8 counterexample: for an AC that advertises only the low fan
speed, the name turbo is outside the advertised set, yet async_set_fan_mode
does not raise a lookup error — it issues the set_fan_speed TURBO vendor
call, because the dict lookup is against the full reverse table rather than
the advertised list. -/
theorem set_fan_mode_outside_advertised_no_error :
    ("turbo" ∉ (AcClimateEntity.init acSampleLowFanOnly)._attr_fan_modes) ∧
    (AcClimateEntity.init acSampleLowFanOnly).async_set_fan_mode ("turbo") =
      ⟨[AcVendorCall.set_fan_speed AcFanSpeed.TURBO], false, 0⟩ := by
  decide

/-- The reverse zone fan table is the inversion of the forward zone table. -/
theorem climate_to_zone_fan_mode_eq_some (fan_mode : String)
    (power_state : ZonePowerState) :
    _CLIMATE_TO_ZONE_FAN_MODE fan_mode = some power_state ↔
      _ZONE_TO_CLIMATE_FAN_MODE power_state = fan_mode := by
  constructor
  · intro h
    unfold _CLIMATE_TO_ZONE_FAN_MODE at h
    have hp := List.find?_some h
    exact eq_of_beq hp
  · intro h
    subst h
    cases power_state <;> decide

/-- Claim C8 (amended): for both adapters the set-fan-mode operation does a
reverse-table lookup: a name with no reverse-table entry raises a lookup
error and issues no vendor call, a name with an entry forwards exactly the
mapped vendor enum (the AC fan-speed setter, the zone power setter); every
fan mode advertised by an AC adapter has a reverse-table entry, and a name
is advertised by a zone adapter exactly when it has a reverse-table
entry. -/
theorem set_fan_mode_lookup_behaviour (fan_mode : String)
    (self : AcClimateEntity) (zone_self : ZoneClimateEntity) :
    (_CLIMATE_TO_AC_FAN_MODE fan_mode = none →
      self.async_set_fan_mode fan_mode = ⟨[], true, 0⟩) ∧
    (∀ fan_speed, _CLIMATE_TO_AC_FAN_MODE fan_mode = some fan_speed →
      self.async_set_fan_mode fan_mode =
        ⟨[AcVendorCall.set_fan_speed fan_speed], false, 0⟩) ∧
    (_CLIMATE_TO_ZONE_FAN_MODE fan_mode = none →
      zone_self.async_set_fan_mode fan_mode = ⟨[], true⟩) ∧
    (∀ power_state, _CLIMATE_TO_ZONE_FAN_MODE fan_mode = some power_state →
      zone_self.async_set_fan_mode fan_mode =
        ⟨[ZoneVendorCall.set_power power_state], false⟩) ∧
    (∀ airtouch_ac : AirConditioner,
      fan_mode ∈ (AcClimateEntity.init airtouch_ac)._attr_fan_modes →
        ∃ fan_speed, _CLIMATE_TO_AC_FAN_MODE fan_mode = some fan_speed) ∧
    (fan_mode ∈ zone_self.fan_modes ↔
      ∃ power_state, _CLIMATE_TO_ZONE_FAN_MODE fan_mode = some power_state) := by
  refine ⟨?_, ?_, ?_, ?_, ?_, ?_, ?_⟩
  · intro h
    simp [AcClimateEntity.async_set_fan_mode, h]
  · intro fan_speed h
    simp [AcClimateEntity.async_set_fan_mode, h]
  · intro h
    simp [ZoneClimateEntity.async_set_fan_mode, h]
  · intro power_state h
    simp [ZoneClimateEntity.async_set_fan_mode, h]
  · intro airtouch_ac hmem
    obtain ⟨fan_speed, hfs, hfe⟩ := List.mem_map.mp hmem
    exact ⟨fan_speed, (climate_to_ac_fan_mode_eq_some _ _).mpr hfe⟩
  · intro hmem
    obtain ⟨power_state, hps, hpe⟩ :=
      List.mem_map.mp (List.mem_dedup.mp hmem)
    exact ⟨power_state, (climate_to_zone_fan_mode_eq_some _ _).mpr hpe⟩
  · rintro ⟨power_state, hps⟩
    refine List.mem_dedup.mpr (List.mem_map.mpr ⟨power_state, ?_, ?_⟩)
    · cases power_state <;> decide
    · exact (climate_to_zone_fan_mode_eq_some _ _).mp hps

/-- Claim C9: the zone adapter's hvac_modes list is always exactly the pair
of OFF and the table-mapped current parent AC mode; with the parent AC in
COOL mode it is exactly [OFF, COOL]. -/
theorem zone_hvac_modes_pair (self : ZoneClimateEntity) :
    self.hvac_modes =
      [HVACMode.OFF, _AC_TO_CLIMATE_HVAC_MODE self.airtouch_ac.mode] ∧
    self.hvac_modes.length = 2 ∧
    (self.airtouch_ac.mode = AcMode.COOL →
      self.hvac_modes = [HVACMode.OFF, HVACMode.COOL]) := by
  refine ⟨rfl, rfl, ?_⟩
  intro h
  simp [ZoneClimateEntity.hvac_modes, _AC_TO_CLIMATE_HVAC_MODE, h]

/-- No vendor mode is mapped to OFF by the forward mode table. -/
theorem ac_mode_table_never_off :
    ∀ mode, _AC_TO_CLIMATE_HVAC_MODE mode ≠ HVACMode.OFF := by
  decide

/-- Claim C10: the forward mode table never yields OFF, so an AC adapter
reports OFF only when its power state is OFF or OFF_AWAY, a zone adapter
reports OFF only when the zone power is OFF or the parent AC power is an off
variant, and the zone adapter's two advertised modes are always distinct. -/
theorem external_off_only_from_power_state (self : AcClimateEntity)
    (zone_self : ZoneClimateEntity) :
    (∀ mode, _AC_TO_CLIMATE_HVAC_MODE mode ≠ HVACMode.OFF) ∧
    (self.hvac_mode = HVACMode.OFF →
      self.airtouch_ac.power_state = AcPowerState.OFF ∨
        self.airtouch_ac.power_state = AcPowerState.OFF_AWAY) ∧
    (zone_self.hvac_mode = HVACMode.OFF →
      zone_self.airtouch_zone.power_state = ZonePowerState.OFF ∨
        zone_self.airtouch_ac.power_state = AcPowerState.OFF ∨
        zone_self.airtouch_ac.power_state = AcPowerState.OFF_AWAY) ∧
    zone_self.hvac_modes.Nodup := by
  refine ⟨ac_mode_table_never_off, ?_, ?_, ?_⟩
  · obtain ⟨⟨aps, m, fs, sm, sfs, zs⟩, hm, fm⟩ := self
    cases aps <;>
      simp [AcClimateEntity.hvac_mode, ac_mode_table_never_off]
  · obtain ⟨⟨aps, m, fs, sm, sfs, zs⟩, zps, hts⟩ := zone_self
    cases zps <;> cases aps <;>
      simp [ZoneClimateEntity.hvac_mode, ac_mode_table_never_off]
  · refine List.nodup_cons.mpr ⟨?_, List.nodup_singleton _⟩
    intro hmem
    exact ac_mode_table_never_off zone_self.airtouch_ac.mode
      (List.mem_singleton.mp hmem).symm

end AirtouchClimate
